import Mathlib

/-!
Verification of the petfinder-sdk client-side query engine.

We give a shallow embedding of the Python sources (`petfinder/query.py`,
`petfinder/cache.py`, `petfinder/animals.py`, `petfinder/static_data.py`,
`petfinder/client.py`) and prove or refute the specification's claims
against it.  Python dicts become association lists with Python's
insertion-order merge semantics, Python values that can appear as query
parameters become `PyVal`, exceptions become `Except`, the network and
the filesystem become explicit state threaded through the executor.
-/

set_option autoImplicit false

namespace Petfinder

/-- A Python value usable as a raw query parameter: a string, an int,
or a list of strings (`filter(breed=[...])` etc.). -/
inductive PyVal where
  | s (v : String)
  | i (v : Int)
  | ls (v : List String)
  deriving Repr, DecidableEq

/-- Python truthiness for the values above (`if values.get("distance"):`):
empty string, zero and empty list are falsy. -/
def PyVal.truthy : PyVal → Bool
  | .s v => v ≠ ""
  | .i v => v ≠ 0
  | .ls v => v ≠ []

/-- A Python dict with string keys, as an insertion-ordered association
list.  Well-formed dicts have no duplicate keys. -/
abbrev PyDict (α : Type) := List (String × α)

variable {α : Type}

/-- Embedding of `d.get(k)`: first binding of `k`. -/
def pyLookup (d : PyDict α) (k : String) : Option α :=
  match d with
  | [] => none
  | (k2, v) :: rest => if k2 = k then some v else pyLookup rest k

/-- Embedding of `k in d`. -/
def pyHasKey (d : PyDict α) (k : String) : Bool :=
  (pyLookup d k).isSome

/-- Embedding of `{**a, **b}`: keys of `a` in their order (values overridden by `b`
where `b` also binds them), then keys of `b` not in `a`, in `b`'s order.
This is CPython's dict-merge semantics, used by `Query._chain`. -/
def pyMerge (a b : PyDict α) : PyDict α :=
  (a.map fun kv =>
    match pyLookup b kv.1 with
    | some v => (kv.1, v)
    | none => kv)
  ++ b.filter fun kv => !(pyHasKey a kv.1)

@[simp] theorem pyLookup_nil (k : String) : pyLookup ([] : PyDict α) k = none := rfl

@[simp] theorem pyLookup_cons (k2 : String) (v : α) (rest : PyDict α) (k : String) :
    pyLookup ((k2, v) :: rest) k
      = if k2 = k then some v else pyLookup rest k := rfl

theorem pyLookup_append (a b : PyDict α) (k : String) :
    pyLookup (a ++ b) k
      = ((pyLookup a k).orElse fun _ => pyLookup b k) := by
  induction a with
  | nil => simp [Option.orElse]
  | cons hd tl ih =>
      obtain ⟨k2, v⟩ := hd
      by_cases h : k2 = k <;> simp [h, ih, Option.orElse]

theorem pyLookup_filter (p : String × α → Bool) (d : PyDict α) (k : String)
    (hp : ∀ v : α, p (k, v) = true) :
    pyLookup (d.filter p) k = pyLookup d k := by
  induction d with
  | nil => rfl
  | cons hd tl ih =>
      obtain ⟨k2, v⟩ := hd
      by_cases hk : k2 = k
      · subst hk
        simp [List.filter, hp v, ih]
      · cases hpv : p (k2, v) <;> simp [List.filter, hpv, hk, ih]

theorem pyLookup_mapOverride (b : PyDict α) (a : PyDict α) (k : String) :
    pyLookup (a.map fun kv =>
        match pyLookup b kv.1 with
        | some v => (kv.1, v)
        | none => kv) k
      = (pyLookup a k).map fun v => (pyLookup b k).getD v := by
  induction a with
  | nil => rfl
  | cons hd tl ih =>
      obtain ⟨k2, v⟩ := hd
      by_cases hk : k2 = k
      · subst hk
        cases hb : pyLookup b k2 <;> simp [hb]
      · cases hb2 : pyLookup b k2 <;> simp [hb2, hk, ih]

/-- Lookup in a Python dict-merge: the right operand wins when it binds
the key, otherwise the left operand's binding is kept. -/
theorem pyLookup_merge (a b : PyDict α) (k : String) :
    pyLookup (pyMerge a b) k
      = ((pyLookup b k).orElse fun _ => pyLookup a k) := by
  rw [pyMerge, pyLookup_append, pyLookup_mapOverride]
  cases ha : pyLookup a k with
  | some v =>
      cases hb : pyLookup b k <;> simp [Option.orElse]
  | none =>
      have hfil : pyLookup (b.filter fun kv => !(pyHasKey a kv.1)) k
          = pyLookup b k := by
        refine pyLookup_filter _ b k fun v => ?_
        simp [pyHasKey, ha]
      cases hb : pyLookup b k <;> simp [Option.orElse, hfil, hb]

/-- The pure data of a `Query` descriptor (`query.py`, class `Query`):
a request path and a raw parameter map, plus the execution-mode flag.
The opaque callables (`get_client`, `refresh_access_token`), the cache
and the static-data store are threaded explicitly through the executor
below rather than stored, since they are references, not data. -/
structure Query where
  path : String
  params : PyDict PyVal
  async_ : Bool
  deriving Repr, DecidableEq

/-- Embedding of `Query._chain`: returns a NEW descriptor whose params are
`{**self.params, **new_query_params}`; the receiver is only read. -/
def Query.chain (q : Query) (newParams : PyDict PyVal) : Query :=
  { q with params := pyMerge q.params newParams }

/-- C2: chaining `q` with `a` then `b` yields a descriptor whose
parameter map is `q.params` merged with `a` then `b` (later maps
override earlier ones on overlapping keys), and the original
descriptor's path and parameter map are untouched: `_chain` constructs
a fresh object from `self.path` and a fresh merged dict, mutating
nothing, which the pure embedding reflects by `q.chain` being a
function of the unchanged value `q`. -/
theorem chain_chain_merges (q : Query) (a b : PyDict PyVal) :
    ((q.chain a).chain b).params = pyMerge (pyMerge q.params a) b
    ∧ (∀ k, pyLookup ((q.chain a).chain b).params k
        = ((pyLookup b k).orElse fun _ =>
            ((pyLookup a k).orElse fun _ => pyLookup q.params k)))
    ∧ ((q.chain a).chain b).path = q.path := by
  refine ⟨rfl, ?_, rfl⟩
  intro k
  show pyLookup (pyMerge (pyMerge q.params a) b) k = _
  rw [pyLookup_merge, pyLookup_merge]

/-! ### Static reference data (`static_data.py`) -/

/-- Embedding of `CategoryData`: the four vocabularies held per category.  Python uses
`Set[str]`; we use lists and membership, which is all the code observes.
The client lowercases every value on ingestion (`client.py`,
`_initialize_static_data`). -/
structure CategoryData where
  breeds : List String
  coats : List String
  colors : List String
  genders : List String
  deriving Repr, DecidableEq

/-- Embedding of `StaticData._store : Dict[Category, CategoryData]`, keyed by the
category's string value. -/
structure StaticData where
  store : PyDict CategoryData
  deriving Repr, DecidableEq

/-- Errors raised during parameter validation (`ValueError` subclasses in
`animals.py`, plus Python's built-in `KeyError`/`TypeError`, plus
pydantic's per-field `ValidationError`). -/
inductive ValErr where
  | missingDependency (attrName dependency : String)
  | invalidChoice (field choice : String)
  | keyError
  | typeError
  | fieldError (field : String)
  deriving Repr, DecidableEq

/-- Embedding of `StaticData.get_breeds`: `self._store[k].breeds`; a `KeyError`
escapes if the category was never populated. -/
def StaticData.get_breeds (sd : StaticData) (k : String) : Except ValErr (List String) :=
  match pyLookup sd.store k with
  | some d => .ok d.breeds
  | none => .error .keyError

/-- Embedding of `StaticData.get_colors`: `self._store[k].colors`. -/
def StaticData.get_colors (sd : StaticData) (k : String) : Except ValErr (List String) :=
  match pyLookup sd.store k with
  | some d => .ok d.colors
  | none => .error .keyError

/-! ### Enum vocabularies

`enums.py` is not among the provided sources; the value sets below are the
literal forms listed in `types.py` (`AgeType`, `CategoryType`, `CoatType`,
`GenderType`, `SizeType`, `SortType`, `StatusType`), which the enums are
declared to mirror. -/

def validCategories : List String :=
  ["dog", "cat", "small-furry", "bird", "scales-fins-other", "barnyard", "rabbit", "horse"]

def validAges : List String := ["baby", "young", "adult", "senior"]

def validCoats : List String := ["short", "medium", "long", "wire", "hairless", "curly"]

def validGenders : List String := ["male", "female", "unknown"]

def validSizes : List String := ["small", "medium", "large", "extra-large"]

def validSorts : List String := ["recent", "random", "distance", "-recent", "-distance"]

def validStatuses : List String := ["adoptable", "adopted", "found"]

/-! ### `AnimalQueryParams` validation (`animals.py`) -/

/-- Embedding of `values.get(k)` followed by Python truthiness, as in
`if values.get("distance"):`. -/
def truthyAt (d : PyDict PyVal) (k : String) : Bool :=
  match pyLookup d k with
  | some v => v.truthy
  | none => false

/-- Embedding of `values.get("sort") in (Sort.distance, Sort.reverse_distance)`:
`Sort` is a string-valued enum whose distance orderings are `"distance"`
and `"-distance"` (`types.py`). -/
def sortNeedsLocation (v : Option PyVal) : Bool :=
  v = some (.s "distance") || v = some (.s "-distance")

/-- Python iteration over a parameter value (`for breed in values["breed"]`):
a list yields its items, a string yields its characters, an int raises
`TypeError`. -/
def pyIter : PyVal → Except ValErr (List String)
  | .s v => .ok (v.data.map fun c => String.mk [c])
  | .i _ => .error .typeError
  | .ls l => .ok l

/-- Embedding of `str.lower()`, structurally (the vocabularies and filter values here
are ASCII). -/
def pyLower (s : String) : String :=
  String.mk (s.data.map fun c =>
    if 65 ≤ c.toNat ∧ c.toNat ≤ 90 then Char.ofNat (c.toNat + 32) else c)

/-- The loop `for breed in values["breed"]: if breed.lower() not in
valid_breeds: raise InvalidChoice(...)` — first offender wins. -/
def checkChoices (field : String) (valid : List String) : List String → Except ValErr Unit
  | [] => .ok ()
  | x :: rest =>
      if valid.contains (pyLower x) then checkChoices field valid rest
      else .error (.invalidChoice field x)

/-- First half of `check_dependencies_and_categoricals`: the cross-field
dependency checks, which the code runs before anything touches the
reference store. -/
def checkDeps (values : PyDict PyVal) : Except ValErr Unit :=
  if (pyLookup values "location").isNone then
    if truthyAt values "distance" then .error (.missingDependency "distance" "location")
    else if sortNeedsLocation (pyLookup values "sort") then
      .error (.missingDependency "sort" "location")
    else .ok ()
  else .ok ()

/-- Second half of `check_dependencies_and_categoricals`: if a type is
set, breed values then color values are checked (lowercased) against the
reference store's set for that type. -/
def checkCategoricals (sd : StaticData) (values : PyDict PyVal) : Except ValErr Unit :=
  if truthyAt values "type" then
    match pyLookup values "type" with
    | some (.s t) => do
        (if truthyAt values "breed" then do
            let breeds ← sd.get_breeds t
            let items ← pyIter ((pyLookup values "breed").getD (.ls []))
            checkChoices "breed" breeds items
         else .ok ())
        if truthyAt values "color" then do
          let colors ← sd.get_colors t
          let items ← pyIter ((pyLookup values "color").getD (.ls []))
          checkChoices "color" colors items
        else .ok ()
    | some (.i _) => .error .keyError
    | some (.ls _) => .error .typeError
    | none => .ok ()
  else .ok ()

/-- Embedding of `@root_validator(pre=True) check_dependencies_and_categoricals`. -/
def rootValidate (sd : StaticData) (values : PyDict PyVal) : Except ValErr Unit := do
  checkDeps values
  checkCategoricals sd values

/-! Per-field pydantic parsing, followed by `QueryParams.dict()`, which
drops `None` fields (`exclude_none`) and comma-joins list values
(`_as_query_string` in `query.py`).  The fluent API passes values of the
declared types, so numeric-string coercion is not modelled.  Fields with
default `None` are absent from the output when not supplied; `status`,
`sort`, `limit` and `page` carry non-`None` defaults and are always
present. -/

/-- An optional field declared `str`. -/
def fieldStr (raw : PyDict PyVal) (name : String) : Except ValErr (Option PyVal) :=
  match pyLookup raw name with
  | none => .ok none
  | some (.s v) => .ok (some (.s v))
  | some _ => .error (.fieldError name)

/-- An optional field declared as an enum (`type: Category = None`):
the supplied string must be one of the enum's values. -/
def fieldEnum (raw : PyDict PyVal) (name : String) (valid : List String) :
    Except ValErr (Option PyVal) :=
  match pyLookup raw name with
  | none => .ok none
  | some (.s v) => if valid.contains v then .ok (some (.s v)) else .error (.fieldError name)
  | some _ => .error (.fieldError name)

/-- A field declared as an enum with a non-`None` default
(`status`, `sort`). -/
def fieldEnumD (raw : PyDict PyVal) (name : String) (valid : List String)
    (dflt : String) : Except ValErr PyVal :=
  match pyLookup raw name with
  | none => .ok (.s dflt)
  | some (.s v) => if valid.contains v then .ok (.s v) else .error (.fieldError name)
  | some _ => .error (.fieldError name)

/-- An optional `List[str]` field (`breed`, `color`, `organization`);
`dict()` comma-joins it. -/
def fieldStrList (raw : PyDict PyVal) (name : String) : Except ValErr (Option PyVal) :=
  match pyLookup raw name with
  | none => .ok none
  | some (.ls l) => .ok (some (.s (String.intercalate "," l)))
  | some _ => .error (.fieldError name)

/-- An optional list-of-enum field (`size`, `gender`, `age`, `coat`);
each element must be an enum value; `dict()` comma-joins it. -/
def fieldEnumList (raw : PyDict PyVal) (name : String) (valid : List String) :
    Except ValErr (Option PyVal) :=
  match pyLookup raw name with
  | none => .ok none
  | some (.ls l) =>
      if l.all (valid.contains ·) then .ok (some (.s (String.intercalate "," l)))
      else .error (.fieldError name)
  | some _ => .error (.fieldError name)

/-- Embedding of `distance: PositiveInt = None`. -/
def fieldDistance (raw : PyDict PyVal) : Except ValErr (Option PyVal) :=
  match pyLookup raw "distance" with
  | none => .ok none
  | some (.i v) => if 0 < v then .ok (some (.i v)) else .error (.fieldError "distance")
  | some _ => .error (.fieldError "distance")

/-- Embedding of `limit: conint(gt=0, le=100) = 100`. -/
def fieldLimit (raw : PyDict PyVal) : Except ValErr PyVal :=
  match pyLookup raw "limit" with
  | none => .ok (.i 100)
  | some (.i v) =>
      if 0 < v ∧ v ≤ 100 then .ok (.i v) else .error (.fieldError "limit")
  | some _ => .error (.fieldError "limit")

/-- Embedding of `page: conint(ge=1) = 1`. -/
def fieldPage (raw : PyDict PyVal) : Except ValErr PyVal :=
  match pyLookup raw "page" with
  | none => .ok (.i 1)
  | some (.i v) => if 1 ≤ v then .ok (.i v) else .error (.fieldError "page")
  | some _ => .error (.fieldError "page")

/-- An optional field's contribution to the output dict
(`exclude_none=True`). -/
def optEntry (name : String) : Option PyVal → PyDict PyVal
  | none => []
  | some v => [(name, v)]

/-- Embedding of `AnimalQueryParams(__static_data__=sd, **raw).dict()`: the pre-root
validator, then per-field parsing in declaration order, then the
`dict()` conversion.  Unknown keys are ignored (pydantic's default
`extra` behaviour); output keys follow field declaration order. -/
def AnimalQueryParams.parse (sd : StaticData) (raw : PyDict PyVal) :
    Except ValErr (PyDict PyVal) := do
  rootValidate sd raw
  let typ ← fieldEnum raw "type" validCategories
  let breed ← fieldStrList raw "breed"
  let size ← fieldEnumList raw "size" validSizes
  let gender ← fieldEnumList raw "gender" validGenders
  let age ← fieldEnumList raw "age" validAges
  let color ← fieldStrList raw "color"
  let coat ← fieldEnumList raw "coat" validCoats
  let organization ← fieldStrList raw "organization"
  let nm ← fieldStr raw "name"
  let location ← fieldStr raw "location"
  let distance ← fieldDistance raw
  let status ← fieldEnumD raw "status" validStatuses "adoptable"
  let sort ← fieldEnumD raw "sort" validSorts "recent"
  let limit ← fieldLimit raw
  let page ← fieldPage raw
  .ok (optEntry "type" typ ++ optEntry "breed" breed ++ optEntry "size" size
    ++ optEntry "gender" gender ++ optEntry "age" age ++ optEntry "color" color
    ++ optEntry "coat" coat ++ optEntry "organization" organization
    ++ optEntry "name" nm ++ optEntry "location" location
    ++ optEntry "distance" distance
    ++ [("status", status), ("sort", sort), ("limit", limit), ("page", page)])

/-! ### HTTP requests (`httpx` collaborator, as the code uses it)

`client.build_request("GET", path, params=...)` joins the client's
base URL (`https://api.petfinder.com/v2`, trailing slash enforced by
httpx) with the relative path and serialises the params dict, in
insertion order, as the query string.  `request.url.raw_path` is the
path plus `?` plus the query string (no `?` when there are no params).
Percent-encoding is not modelled: every value the client sends is made
of URL-safe characters. -/

structure Request where
  method : String
  urlPath : String
  params : PyDict PyVal
  deriving Repr, DecidableEq

/-- How httpx renders one param value: ints via `str()`, lists as
repeated `key=value` pairs. -/
def encodeVal : PyVal → List String
  | .s v => [v]
  | .i n => [toString n]
  | .ls l => l

/-- The serialised query string, params in dict insertion order. -/
def queryString (params : PyDict PyVal) : String :=
  String.intercalate "&"
    (params.flatMap fun kv => (encodeVal kv.2).map fun v => kv.1 ++ "=" ++ v)

/-- Embedding of `request.url.raw_path`. -/
def Request.rawPath (r : Request) : String :=
  if r.params.isEmpty then r.urlPath else r.urlPath ++ "?" ++ queryString r.params

/-- Joining the client's base-URL path with a query's relative path. -/
def buildUrlPath (basePath relPath : String) : String :=
  basePath ++ "/" ++ relPath

/-! ### MD5 (`hashlib.md5(...).hexdigest()`, RFC 1321) -/

namespace MD5

def mask32 : Nat := 4294967296

def rotl (x n : Nat) : Nat :=
  ((x <<< n) ||| (x >>> (32 - n))) % mask32

def kTable : List Nat := [
  3614090360, 3905402710, 606105819, 3250441966,
  4118548399, 1200080426, 2821735955, 4249261313,
  1770035416, 2336552879, 4294925233, 2304563134,
  1804603682, 4254626195, 2792965006, 1236535329,
  4129170786, 3225465664, 643717713, 3921069994,
  3593408605, 38016083, 3634488961, 3889429448,
  568446438, 3275163606, 4107603335, 1163531501,
  2850285829, 4243563512, 1735328473, 2368359562,
  4294588738, 2272392833, 1839030562, 4259657740,
  2763975236, 1272893353, 4139469664, 3200236656,
  681279174, 3936430074, 3572445317, 76029189,
  3654602809, 3873151461, 530742520, 3299628645,
  4096336452, 1126891415, 2878612391, 4237533241,
  1700485571, 2399980690, 4293915773, 2240044497,
  1873313359, 4264355552, 2734768916, 1309151649,
  4149444226, 3174756917, 718787259, 3951481745]

def sTable : List Nat := [
  7, 12, 17, 22, 7, 12, 17, 22, 7, 12, 17, 22, 7, 12, 17, 22,
  5, 9, 14, 20, 5, 9, 14, 20, 5, 9, 14, 20, 5, 9, 14, 20,
  4, 11, 16, 23, 4, 11, 16, 23, 4, 11, 16, 23, 4, 11, 16, 23,
  6, 10, 15, 21, 6, 10, 15, 21, 6, 10, 15, 21, 6, 10, 15, 21]

def not32 (x : Nat) : Nat := x ^^^ 4294967295

/-- The round function and message-word index for round `i`. -/
def fg (i b c d : Nat) : Nat × Nat :=
  if i < 16 then ((b &&& c) ||| (not32 b &&& d), i)
  else if i < 32 then ((d &&& b) ||| (not32 d &&& c), (5 * i + 1) % 16)
  else if i < 48 then (b ^^^ c ^^^ d, (3 * i + 5) % 16)
  else (c ^^^ (b ||| not32 d), (7 * i) % 16)

def round (m : List Nat) (st : Nat × Nat × Nat × Nat) (i : Nat) : Nat × Nat × Nat × Nat :=
  let (a, b, c, d) := st
  let (f, g) := fg i b c d
  let f2 := (f + a + kTable.getD i 0 + m.getD g 0) % mask32
  (d, (b + rotl f2 (sTable.getD i 0)) % mask32, b, c)

def processBlock (st : Nat × Nat × Nat × Nat) (m : List Nat) : Nat × Nat × Nat × Nat :=
  let (a0, b0, c0, d0) := st
  let (a, b, c, d) := (List.range 64).foldl (round m) (a0, b0, c0, d0)
  ((a0 + a) % mask32, (b0 + b) % mask32, (c0 + c) % mask32, (d0 + d) % mask32)

/-- Consume the padded message 16 words (one 512-bit block) at a time. -/
def processWords (st : Nat × Nat × Nat × Nat) : List Nat → Nat × Nat × Nat × Nat
  | w0 :: w1 :: w2 :: w3 :: w4 :: w5 :: w6 :: w7 ::
    w8 :: w9 :: w10 :: w11 :: w12 :: w13 :: w14 :: w15 :: rest =>
      processWords (processBlock st
        [w0, w1, w2, w3, w4, w5, w6, w7, w8, w9, w10, w11, w12, w13, w14, w15]) rest
  | _ => st

/-- Bytes to little-endian 32-bit words. -/
def toWords : List Nat → List Nat
  | b0 :: b1 :: b2 :: b3 :: rest =>
      (b0 + 256 * (b1 + 256 * (b2 + 256 * b3))) :: toWords rest
  | _ => []

/-- Append `0x80`, zero-pad to 56 mod 64 bytes, append the 64-bit
little-endian bit length. -/
def padMessage (msg : List Nat) : List Nat :=
  let len := msg.length
  let bitLen := (len * 8) % 18446744073709551616
  let padZeros := (56 + 64 - (len + 1) % 64) % 64
  msg ++ [128] ++ List.replicate padZeros 0 ++
    [bitLen % 256, bitLen / 256 % 256, bitLen / 65536 % 256,
     bitLen / 16777216 % 256, bitLen / 4294967296 % 256,
     bitLen / 1099511627776 % 256, bitLen / 281474976710656 % 256,
     bitLen / 72057594037927936 % 256]

def hexChar (n : Nat) : Char :=
  if n < 10 then Char.ofNat (48 + n) else Char.ofNat (87 + n)

def byteHex (b : Nat) : String :=
  String.mk [hexChar (b / 16), hexChar (b % 16)]

def wordLEBytes (w : Nat) : List Nat :=
  [w % 256, w / 256 % 256, w / 65536 % 256, w / 16777216 % 256]

/-- Embedding of `md5(bytes).hexdigest()`. -/
def hexdigest (msg : List Nat) : String :=
  let ws := toWords (padMessage msg)
  let (a, b, c, d) := processWords (1732584193, 4023233417, 2562383102, 271733878) ws
  String.join ((wordLEBytes a ++ wordLEBytes b ++ wordLEBytes c ++ wordLEBytes d).map byteHex)

/-- UTF-8 bytes of a string (request paths are ASCII in practice). -/
def encodeChar (c : Char) : List Nat :=
  let n := c.toNat
  if n < 128 then [n]
  else if n < 2048 then [192 + n / 64, 128 + n % 64]
  else if n < 65536 then [224 + n / 4096, 128 + (n / 64) % 64, 128 + n % 64]
  else [240 + n / 262144, 128 + (n / 4096) % 64, 128 + (n / 64) % 64, 128 + n % 64]

def utf8Bytes (s : String) : List Nat :=
  s.data.flatMap encodeChar

end MD5

/-- Embedding of `FileCache.as_key`: `os.path.join(self.directory,
f"{md5(request.url.raw_path).hexdigest()}.json")`.  The key is a hash of
the raw path (path plus query string) alone. -/
def FileCache.as_key (directory : String) (r : Request) : String :=
  directory ++ "/" ++ MD5.hexdigest (MD5.utf8Bytes r.rawPath) ++ ".json"

/-! ### Response cache (`cache.py`)

`FileCache` keeps one file per entry, named by `as_key`; `mtime` is the
"last cached at" timestamp.  The filesystem is explicit state.  The
`unreadable`/`unwritable` sets model storage whose `open()` raises
`OSError` for reading resp. writing a given key.  Response bodies are a
type parameter `β`: Python serialises `response.text` and deserialises
with `json.loads`, which round-trips the parsed body, so serialisation
is the identity here. -/

variable {β : Type}

/-- Dict assignment `d[k] = v`: updates in place, appends when new. -/
def pySet (d : PyDict α) (k : String) (v : α) : PyDict α :=
  if pyHasKey d k then d.map fun kv => if kv.1 = k then (k, v) else kv
  else d ++ [(k, v)]

/-- Dict deletion. -/
def pyDel (d : PyDict α) (k : String) : PyDict α :=
  d.filter fun kv => kv.1 ≠ k

/-- An HTTP response: status code and (parsed) body. -/
structure Response (β : Type) where
  status : Nat
  body : β
  deriving Repr, DecidableEq

structure FileSys (β : Type) where
  files : PyDict β
  mtimes : PyDict Nat
  unreadable : List String
  unwritable : List String
  deriving Repr, DecidableEq

/-- Embedding of `os.path.exists(key)` — `FileCache.__contains__`. -/
def FileSys.contains (fs : FileSys β) (k : String) : Bool :=
  pyHasKey fs.files k

/-- Embedding of `FileCache.__getitem__`: `open(key).read()`; raises `OSError` when
the file is missing or unreadable. -/
def FileSys.getItem (fs : FileSys β) (k : String) : Except Unit β :=
  if fs.unreadable.contains k then .error ()
  else
    match pyLookup fs.files k with
    | some v => .ok v
    | none => .error ()

/-- Embedding of `FileCache.__setitem__`: `open(key, "w").write(value)`; sets the
file's mtime to the current time; raises `OSError` when unwritable. -/
def FileSys.setItem (fs : FileSys β) (k : String) (v : β) (now : Nat) :
    Except Unit (FileSys β) :=
  if fs.unwritable.contains k then .error ()
  else .ok { fs with files := pySet fs.files k v, mtimes := pySet fs.mtimes k now }

/-- Embedding of `FileCache.__delitem__`: `os.remove(key)` guarded by existence. -/
def FileSys.delItem (fs : FileSys β) (k : String) : FileSys β :=
  { fs with files := pyDel fs.files k, mtimes := pyDel fs.mtimes k }

/-- Embedding of `FileCache.get_last_cached_at`: `int(os.path.getmtime(key))`; only
reached on keys that exist. -/
def FileSys.lastCachedAt (fs : FileSys β) (k : String) : Nat :=
  (pyLookup fs.mtimes k).getD 0

/-- Embedding of `str.startswith(prefix)`, on the character sequences (equivalent to
`String.startsWith`, but defined structurally). -/
def strStartsWith (s p : String) : Bool :=
  p.data.isPrefixOf s.data

/-- Embedding of `default_keep_forever_behavior`:
`request.url.path.startswith("/v2/types")`. -/
def default_keep_forever_behavior (r : Request) : Bool :=
  strStartsWith r.urlPath "/v2/types"

/-- The constructor arguments of `FileCache` it keeps as state.  The
`save_condition` and `keep_forever` callbacks are `Option`al exactly as
in the source; the constructor defaults are `None` and
`default_keep_forever_behavior`. -/
structure CacheCfg (β : Type) where
  directory : String
  time_to_live : Nat := 3600
  save_condition : Option (Request → Response β → Bool) := none
  keep_forever : Option (Request → Bool) := some default_keep_forever_behavior

/-- Embedding of `ResponseCache._cached_value_expired`.  `time.time() -
get_last_cached_at(key) > time_to_live` with truncated subtraction,
which agrees with Python's signed arithmetic: a clock earlier than the
mtime makes the difference non-positive, hence not expired, in both. -/
def cachedValueExpired (cfg : CacheCfg β) (fs : FileSys β) (r : Request) (now : Nat) : Bool :=
  match cfg.keep_forever with
  | some kf =>
      if kf r then false
      else now - fs.lastCachedAt (FileCache.as_key cfg.directory r) > cfg.time_to_live
  | none => now - fs.lastCachedAt (FileCache.as_key cfg.directory r) > cfg.time_to_live

/-- Embedding of `ResponseCache.has_response`: absent → `False`; present and expired
→ delete the entry and `False`; otherwise `True`.  Returns the possibly
changed filesystem alongside. -/
def hasResponse (cfg : CacheCfg β) (fs : FileSys β) (r : Request) (now : Nat) :
    Bool × FileSys β :=
  let key := FileCache.as_key cfg.directory r
  if ¬ fs.contains key then (false, fs)
  else if cachedValueExpired cfg fs r now then (false, fs.delItem key)
  else (true, fs)

/-- Embedding of `ResponseCache.get_response`: read and deserialise. -/
def getResponse (cfg : CacheCfg β) (fs : FileSys β) (r : Request) : Except Unit β :=
  fs.getItem (FileCache.as_key cfg.directory r)

/-- Embedding of `ResponseCache._response_should_be_cached`. -/
def responseShouldBeCached (cfg : CacheCfg β) (r : Request) (resp : Response β) : Bool :=
  match cfg.save_condition with
  | none => true
  | some sc => sc r resp

/-- Embedding of `ResponseCache.save_response`: write (serialised) when the save
condition holds. -/
def saveResponse (cfg : CacheCfg β) (fs : FileSys β) (r : Request) (resp : Response β)
    (now : Nat) : Except Unit (FileSys β) :=
  if responseShouldBeCached cfg r resp then
    fs.setItem (FileCache.as_key cfg.directory r) resp.body now
  else .ok fs

/-! ### Query execution (`query.py`, `Query._execute` / `_async_execute`)

The network is a script: a list of responses, one consumed per
`client.send`.  Both execution paths have the same structure (the async
one only awaits), so one embedding covers both.  The `except
httpx.HTTPStatusError` handler around the whole body refreshes the
token and calls `self._execute()` again whenever the status is 401 —
with no attempt counter — and re-raises otherwise; exceptions that are
not `HTTPStatusError` (pydantic validation errors, cache `OSError`s)
propagate to the caller.  `outOfResponses` marks runs in which the code
was still retrying when the script ran dry. -/

inductive ExecOutcome (β : Type) where
  | ok (body : β)
  | httpError (status : Nat)
  | cacheFailure
  | validationError (e : ValErr)
  | outOfResponses
  deriving Repr, DecidableEq

structure ExecResult (β : Type) where
  outcome : ExecOutcome β
  fs : FileSys β
  refreshes : Nat
  sends : Nat
  deriving Repr, DecidableEq

/-- Which `params_class` the query's class declares. -/
inductive ParamsClass where
  | plain
  | animals
  deriving Repr, DecidableEq

/-- Embedding of `Query._build_request`: parse the raw params through the params
class when one is declared, then build a GET request. -/
def buildRequest (pc : ParamsClass) (sd : StaticData) (basePath : String) (q : Query) :
    Except ValErr Request :=
  match pc with
  | .plain => .ok ⟨"GET", buildUrlPath basePath q.path, q.params⟩
  | .animals =>
      (AnimalQueryParams.parse sd q.params).map fun ps =>
        ⟨"GET", buildUrlPath basePath q.path, ps⟩

/-- One `try:`-block attempt plus the recursive 401 handling: check the
cache, else consume the next scripted response; on 401 refresh and
start over (`self._execute()` re-runs the cache check too). -/
def attemptLoop (cfg? : Option (CacheCfg β)) (req : Request) (now : Nat)
    (fs : FileSys β) (script : List (Response β)) (refreshes sends : Nat) :
    ExecResult β :=
  let checked :=
    match cfg? with
    | some cfg => hasResponse cfg fs req now
    | none => (false, fs)
  let fs1 := checked.2
  if checked.1 then
    match cfg? with
    | some cfg =>
        match getResponse cfg fs1 req with
        | .error _ => ⟨.cacheFailure, fs1, refreshes, sends⟩
        | .ok v => ⟨.ok v, fs1, refreshes, sends⟩
    | none => ⟨.outOfResponses, fs1, refreshes, sends⟩
  else
    match script with
    | [] => ⟨.outOfResponses, fs1, refreshes, sends⟩
    | resp :: rest =>
        if resp.status < 400 then
          match cfg? with
          | some cfg =>
              match saveResponse cfg fs1 req resp now with
              | .error _ => ⟨.cacheFailure, fs1, refreshes, sends + 1⟩
              | .ok fs2 => ⟨.ok resp.body, fs2, refreshes, sends + 1⟩
          | none => ⟨.ok resp.body, fs1, refreshes, sends + 1⟩
        else if resp.status = 401 then
          attemptLoop cfg? req now fs1 rest (refreshes + 1) (sends + 1)
        else ⟨.httpError resp.status, fs1, refreshes, sends + 1⟩

/-- Embedding of `Query.execute()` (sync `_execute` / async `_async_execute`): build
the request, then run the attempt loop.  A validation error in
`_build_request` escapes before anything is sent. -/
def Query.execRun (pc : ParamsClass) (sd : StaticData) (basePath : String) (q : Query)
    (cfg? : Option (CacheCfg β)) (fs : FileSys β) (script : List (Response β))
    (now : Nat) : ExecResult β :=
  match buildRequest pc sd basePath q with
  | .error e => ⟨.validationError e, fs, 0, 0⟩
  | .ok req => attemptLoop cfg? req now fs script 0 0

/-! ### `AnimalsQuery` (`animals.py`)

`AnimalsQuery` fixes `path="animals"` and `params_class =
AnimalQueryParams`.  `search` is bound to `_search` (or `_search_async`),
which takes NO arguments: it runs `self.execute()` once and returns
`results["animals"]`.  Animal records are opaque here (`Nat` ids). -/

structure AnimalsBody where
  animals : List Nat
  deriving Repr, DecidableEq

/-- Embedding of `AnimalsQuery(**kwargs)` with no params yet: `kwargs.setdefault("path", "animals")`. -/
def AnimalsQuery.base (async_ : Bool) : Query :=
  ⟨"animals", [], async_⟩

/-- Embedding of `AnimalsQuery.limit`. -/
def AnimalsQuery.limit (q : Query) (value : Int) : Query :=
  q.chain [("limit", .i value)]

/-- Embedding of `AnimalsQuery.page`. -/
def AnimalsQuery.page (q : Query) (number : Int) : Query :=
  q.chain [("page", .i number)]

/-- The outcome of `AnimalsQuery.search()`: `items` is the returned
animal list when `_search` returned, `none` when an exception
propagated out of `execute()`. -/
structure SearchResult where
  items : Option (List Nat)
  fs : FileSys AnimalsBody
  refreshes : Nat
  sends : Nat
  deriving Repr, DecidableEq

/-- Embedding of `AnimalsQuery._search` / `_search_async`:
`self._format_search_results(self.execute())`, i.e. one `execute()` and
a projection to `results["animals"]`. -/
def AnimalsQuery.searchRun (sd : StaticData) (basePath : String) (q : Query)
    (cfg? : Option (CacheCfg AnimalsBody)) (fs : FileSys AnimalsBody)
    (script : List (Response AnimalsBody)) (now : Nat) : SearchResult :=
  let r := Query.execRun .animals sd basePath q cfg? fs script now
  { items :=
      match r.outcome with
      | .ok b => some b.animals
      | _ => none,
    fs := r.fs, refreshes := r.refreshes, sends := r.sends }

/-! ## Helper lemmas -/

theorem except_bind_ok {ε α γ : Type} (x : Except ε α) (f : α → Except ε γ) (b : γ) :
    (x >>= f) = .ok b ↔ ∃ a, x = .ok a ∧ f a = .ok b := by
  cases x <;> simp [Bind.bind, Except.bind]

theorem pyLookup_mapSet (d : PyDict α) (k : String) (v : α) :
    pyLookup (d.map fun kv => if kv.1 = k then (k, v) else kv) k
      = if pyHasKey d k then some v else none := by
  induction d with
  | nil => rfl
  | cons hd tl ih =>
      obtain ⟨k2, w⟩ := hd
      by_cases hk : k2 = k
      · subst hk
        simp [pyHasKey]
      · simp [hk, ih, pyHasKey]

theorem pyLookup_pySet_self (d : PyDict α) (k : String) (v : α) :
    pyLookup (pySet d k v) k = some v := by
  rw [pySet]
  by_cases h : pyHasKey d k
  · simp [h, pyLookup_mapSet]
  · have hnone : pyLookup d k = none := by
      rw [pyHasKey] at h
      cases hl : pyLookup d k
      · rfl
      · simp [hl] at h
    simp [h, pyLookup_append, hnone, Option.orElse]

theorem pyLookup_optEntry (n k : String) (x : Option PyVal) :
    pyLookup (optEntry n x) k = if n = k then x else none := by
  cases x with
  | none => simp [optEntry]
  | some v => by_cases h : n = k <;> simp [optEntry, h]

/-- A scripted 401 at the head of the queue, with no cache configured:
refresh once and start over on the remaining script. -/
theorem attemptLoop_noCache_401_step (req : Request) (now : Nat) (fs : FileSys β)
    (e : Response β) (rest : List (Response β)) (he : e.status = 401)
    (refreshes sends : Nat) :
    attemptLoop none req now fs (e :: rest) refreshes sends
      = attemptLoop none req now fs rest (refreshes + 1) (sends + 1) := by
  have h1 : ¬ e.status < 400 := by omega
  simp [attemptLoop, h1, he]

/-- Inner loop of C1's analysis: with no cache configured, every 401 in
the script triggers one token refresh and one further send, with no
attempt bound. -/
theorem attemptLoop_noCache_401s (req : Request) (now : Nat) (fs : FileSys β)
    (errs : List (Response β)) (h401 : ∀ r ∈ errs, r.status = 401)
    (refreshes sends : Nat) :
    (∀ resp : Response β, resp.status < 400 →
      attemptLoop none req now fs (errs ++ [resp]) refreshes sends
        = ⟨.ok resp.body, fs, refreshes + errs.length, sends + errs.length + 1⟩)
    ∧ attemptLoop none req now fs errs refreshes sends
        = ⟨.outOfResponses, fs, refreshes + errs.length, sends + errs.length⟩ := by
  induction errs generalizing refreshes sends with
  | nil =>
      refine ⟨fun resp h => ?_, by simp [attemptLoop]⟩
      simp [attemptLoop, h]
  | cons e rest ih =>
      have he : e.status = 401 := h401 e (by simp)
      have hrest : ∀ r ∈ rest, r.status = 401 := fun r hr => h401 r (by simp [hr])
      have ihr := ih hrest (refreshes + 1) (sends + 1)
      constructor
      · intro resp hresp
        rw [List.cons_append, attemptLoop_noCache_401_step req now fs e _ he,
          ihr.1 resp hresp]
        have e1 : refreshes + 1 + rest.length = refreshes + (e :: rest).length := by
          simp; omega
        have e2 : sends + 1 + rest.length + 1 = sends + (e :: rest).length + 1 := by
          simp; omega
        rw [e1, e2]
      · rw [attemptLoop_noCache_401_step req now fs e _ he, ihr.2]
        have e1 : refreshes + 1 + rest.length = refreshes + (e :: rest).length := by
          simp; omega
        have e2 : sends + 1 + rest.length = sends + (e :: rest).length := by
          simp; omega
        rw [e1, e2]

/-! ## C1 — 401 handling -/

/-- C1 counterexample: with responses 401, 401, 200 and no cache, the
code refreshes the token twice and succeeds on the third send, instead
of failing with a fatal authentication error after one retry; the
refresh callback runs more than once. -/
theorem execute_second_401_refreshes_again :
    (Query.execRun .plain ⟨[]⟩ "/v2" ⟨"animals", [], false⟩ none
        (⟨[], [], [], []⟩ : FileSys Unit)
        [⟨401, ()⟩, ⟨401, ()⟩, ⟨200, ()⟩] 0)
      = ⟨.ok (), ⟨[], [], [], []⟩, 2, 3⟩ := by decide

/-- C1 amended: `execute()` has no attempt counter — the
`except HTTPStatusError` handler refreshes and re-runs the whole body on
EVERY 401, so `n` consecutive 401s cause `n` token refreshes and `n`
further sends; a 401 on the retried request triggers another refresh and
retry rather than surfacing as a fatal error.  (No-cache runs shown; the
success response is whatever first non-error response arrives.) -/
theorem execute_refresh_per_401 (sd : StaticData) (q : Query) (fs : FileSys β)
    (now : Nat) (errs : List (Response β)) (h401 : ∀ r ∈ errs, r.status = 401) :
    (∀ resp : Response β, resp.status < 400 →
      Query.execRun .plain sd "/v2" q none fs (errs ++ [resp]) now
        = ⟨.ok resp.body, fs, errs.length, errs.length + 1⟩)
    ∧ Query.execRun .plain sd "/v2" q none fs errs now
        = ⟨.outOfResponses, fs, errs.length, errs.length⟩ := by
  have h := attemptLoop_noCache_401s (β := β)
    ⟨"GET", buildUrlPath "/v2" q.path, q.params⟩ now fs errs h401 0 0
  constructor
  · intro resp hresp
    have := h.1 resp hresp
    simpa [Query.execRun, buildRequest] using this
  · simpa [Query.execRun, buildRequest] using h.2

/-- Witness for `execute_refresh_per_401` at two scripted 401s. -/
theorem execute_refresh_per_401_witness :
    Query.execRun .plain ⟨[]⟩ "/v2" ⟨"animals", [], false⟩ none
        (⟨[], [], [], []⟩ : FileSys Unit)
        ([⟨401, ()⟩, ⟨401, ()⟩] ++ [⟨200, ()⟩]) 5
      = ⟨.ok (), ⟨[], [], [], []⟩, 2, 3⟩ :=
  (execute_refresh_per_401 ⟨[]⟩ ⟨"animals", [], false⟩ ⟨[], [], [], []⟩ 5
      [⟨401, ()⟩, ⟨401, ()⟩] (by decide)).1 ⟨200, ()⟩ (by decide)

/-! ## C5 — keep-forever entries never expire -/

/-- C5: with the default keep-forever predicate configured, a cached
request whose URL path is under `/v2/types` is never reported expired —
for every elapsed time and every TTL — and `has_response` never deletes
it: it answers exactly "is the key present" and leaves the filesystem
unchanged. -/
theorem keep_forever_never_expires (cfg : CacheCfg β) (fs : FileSys β)
    (r : Request) (now : Nat)
    (hkf : cfg.keep_forever = some default_keep_forever_behavior)
    (hpath : strStartsWith r.urlPath "/v2/types" = true) :
    cachedValueExpired cfg fs r now = false
    ∧ hasResponse cfg fs r now
        = (fs.contains (FileCache.as_key cfg.directory r), fs) := by
  have hexp : cachedValueExpired cfg fs r now = false := by
    simp [cachedValueExpired, hkf, default_keep_forever_behavior, hpath]
  refine ⟨hexp, ?_⟩
  rw [hasResponse]
  by_cases hc : fs.contains (FileCache.as_key cfg.directory r) <;>
    simp [hc, hexp]

/-- Witness for `keep_forever_never_expires`: a vocabulary request
cached in the distant past, probed with TTL 1 far in the future. -/
theorem keep_forever_never_expires_witness :
    cachedValueExpired { directory := "dir", time_to_live := 1 }
        (⟨[(FileCache.as_key "dir" ⟨"GET", "/v2/types/dog", []⟩, 5)],
          [(FileCache.as_key "dir" ⟨"GET", "/v2/types/dog", []⟩, 0)], [], []⟩ : FileSys Nat)
        ⟨"GET", "/v2/types/dog", []⟩ 999999999 = false :=
  (keep_forever_never_expires _ _ _ _ rfl (by decide)).1

/-! ## C6 — the cache key -/

/-- C6 counterexample: `as_key` hashes `request.url.raw_path` alone.
Two requests that differ only in method get the SAME key (the claimed
distinctness fails), and two requests with the same method, path and
parameter set but a different parameter order get DIFFERENT keys (the
claimed order-insensitivity fails: nothing is sorted). -/
theorem as_key_ignores_method_counterexample :
    FileCache.as_key "cache" ⟨"GET", "/v2/animals", [("a", .s "1")]⟩
        = FileCache.as_key "cache" ⟨"POST", "/v2/animals", [("a", .s "1")]⟩
    ∧ ("GET" : String) ≠ "POST"
    ∧ FileCache.as_key "cache" ⟨"GET", "/v2/animals", [("a", .s "1"), ("b", .s "2")]⟩
        ≠ FileCache.as_key "cache" ⟨"GET", "/v2/animals", [("b", .s "2"), ("a", .s "1")]⟩ :=
  ⟨rfl, by decide, by decide⟩

/-- C6 amended: the cache key is a deterministic hash of the request's
raw path — the canonical path plus the query string with the parameters
in the order they were given — and of nothing else: the HTTP method is
not part of the fingerprint, and parameters are not sorted, so any two
requests with equal raw paths share a key while a reordering of the
same parameters changes it. -/
theorem as_key_raw_path_only (d : String) (r1 r2 : Request)
    (h : r1.rawPath = r2.rawPath) :
    FileCache.as_key d r1 = FileCache.as_key d r2 := by
  simp [FileCache.as_key, h]

/-- Witness for `as_key_raw_path_only`: method GET vs POST, same raw
path. -/
theorem as_key_raw_path_only_witness :
    FileCache.as_key "cache" ⟨"GET", "/v2/animals", [("a", PyVal.s "1")]⟩
      = FileCache.as_key "cache" ⟨"POST", "/v2/animals", [("a", PyVal.s "1")]⟩ :=
  as_key_raw_path_only "cache" _ _ rfl

/-! ## C9 — cache backend failures -/

/-- C9 counterexample: nothing in `query.py`/`cache.py` catches the
backend's `OSError`s.  With a fresh cached entry whose file is
unreadable, `execute()` raises (outcome `cacheFailure`) after ZERO
sends instead of treating the failure as a miss; with an unwritable
cache file and a successful network response, `execute()` raises
instead of returning the parsed body. -/
theorem cache_io_failure_counterexample :
    (let key := FileCache.as_key "dir" ⟨"GET", "/v2/animals", []⟩
     let fsR : FileSys Nat := ⟨[(key, 7)], [(key, 100)], [key], []⟩
     let r := Query.execRun .plain ⟨[]⟩ "/v2" ⟨"animals", [], false⟩
        (some { directory := "dir" }) fsR [⟨200, 9⟩] 200
     r.outcome = .cacheFailure ∧ r.sends = 0)
    ∧ (let key := FileCache.as_key "dir" ⟨"GET", "/v2/animals", []⟩
       let fsW : FileSys Nat := ⟨[], [], [], [key]⟩
       let r := Query.execRun .plain ⟨[]⟩ "/v2" ⟨"animals", [], false⟩
          (some { directory := "dir" }) fsW [⟨200, 9⟩] 200
       r.outcome = .cacheFailure ∧ r.sends = 1) := by
  constructor
  · constructor <;> decide
  · constructor <;> decide

/-- C9 amended: cache-backend I/O failures are NOT contained: the `try`
in `_execute` catches only `httpx.HTTPStatusError`, so an `OSError`
from a cache read aborts the query before anything is sent (it is not
treated as a miss), and an `OSError` from the cache write after a
successful network response aborts the query instead of returning the
parsed body. -/
theorem cache_io_failure_propagates (cfg : CacheCfg β) (sd : StaticData) (q : Query)
    (fs : FileSys β) (now : Nat) (req : Request) (key : String)
    (hreq : req = ⟨"GET", buildUrlPath "/v2" q.path, q.params⟩)
    (hkey : key = FileCache.as_key cfg.directory req) :
    (∀ script : List (Response β),
      fs.contains key = true → cachedValueExpired cfg fs req now = false →
      fs.unreadable.contains key = true →
      Query.execRun .plain sd "/v2" q (some cfg) fs script now
        = ⟨.cacheFailure, fs, 0, 0⟩)
    ∧ (∀ (resp : Response β) (rest : List (Response β)),
      fs.contains key = false → resp.status < 400 → cfg.save_condition = none →
      fs.unwritable.contains key = true →
      Query.execRun .plain sd "/v2" q (some cfg) fs (resp :: rest) now
        = ⟨.cacheFailure, fs, 0, 1⟩) := by
  subst hreq
  constructor
  · intro script hc hexp hur
    have hur2 : key ∈ fs.unreadable := by simpa using hur
    rw [Query.execRun]
    simp only [buildRequest]
    rw [attemptLoop.eq_def]
    simp [hasResponse, hc, hexp, getResponse, FileSys.getItem, ← hkey, hur2]
  · intro resp rest hc hst hsave huw
    have huw2 : key ∈ fs.unwritable := by simpa using huw
    rw [Query.execRun]
    simp only [buildRequest]
    rw [attemptLoop.eq_def]
    simp [hasResponse, hc, hst, saveResponse, responseShouldBeCached, hsave,
      FileSys.setItem, ← hkey, huw2]

/-- Witness for `cache_io_failure_propagates`: both failure modes at a
concrete query, filesystem and script. -/
theorem cache_io_failure_propagates_witness :
    (Query.execRun .plain ⟨[]⟩ "/v2" ⟨"animals", [], false⟩
        (some { directory := "dir" })
        (⟨[(FileCache.as_key "dir" ⟨"GET", "/v2/animals", []⟩, (7:Nat))],
          [(FileCache.as_key "dir" ⟨"GET", "/v2/animals", []⟩, 100)],
          [FileCache.as_key "dir" ⟨"GET", "/v2/animals", []⟩], []⟩)
        [⟨200, 9⟩] 200
      = ⟨.cacheFailure, ⟨[(FileCache.as_key "dir" ⟨"GET", "/v2/animals", []⟩, 7)],
          [(FileCache.as_key "dir" ⟨"GET", "/v2/animals", []⟩, 100)],
          [FileCache.as_key "dir" ⟨"GET", "/v2/animals", []⟩], []⟩, 0, 0⟩)
    ∧ (Query.execRun .plain ⟨[]⟩ "/v2" ⟨"animals", [], false⟩
        (some { directory := "dir" })
        (⟨[], [], [], [FileCache.as_key "dir" ⟨"GET", "/v2/animals", []⟩]⟩
          : FileSys Nat)
        [⟨200, 9⟩] 200
      = ⟨.cacheFailure, ⟨[], [], [],
          [FileCache.as_key "dir" ⟨"GET", "/v2/animals", []⟩]⟩, 0, 1⟩) :=
  ⟨(cache_io_failure_propagates { directory := "dir" } ⟨[]⟩ ⟨"animals", [], false⟩
      _ 200 _ _ rfl rfl).1 [⟨200, 9⟩] (by decide) (by decide) (by decide),
   (cache_io_failure_propagates { directory := "dir" } ⟨[]⟩ ⟨"animals", [], false⟩
      _ 200 _ _ rfl rfl).2 ⟨200, 9⟩ [] (by decide) (by decide) rfl (by decide)⟩

/-! ## C3 — cache round-trip with TTL 3600 -/

/-- C3: with the default cache configuration (TTL 3600, always-save,
default keep-forever) and an entry for the built request cached at time
`T`: executing at any `t` with `t - T ≤ 3600` returns the deserialised
cached value with NO network send and an unchanged filesystem; executing
at any `t` with `t - T > 3600`, for a request outside the keep-forever
set, first deletes the expired entry inside `has_response`, then sends
exactly once and overwrites the entry with the fresh body at timestamp
`t`. -/
theorem cache_roundtrip_ttl (cfg : CacheCfg β) (sd : StaticData) (q : Query)
    (fs : FileSys β) (req : Request) (key : String) (v : β) (T : Nat)
    (hreq : req = ⟨"GET", buildUrlPath "/v2" q.path, q.params⟩)
    (hkey : key = FileCache.as_key cfg.directory req)
    (httl : cfg.time_to_live = 3600)
    (hkf : cfg.keep_forever = some default_keep_forever_behavior)
    (hsave : cfg.save_condition = none)
    (hfile : pyLookup fs.files key = some v)
    (hmtime : pyLookup fs.mtimes key = some T)
    (hur : fs.unreadable = []) (huw : fs.unwritable = []) :
    (∀ (t : Nat) (script : List (Response β)), t - T ≤ 3600 →
      Query.execRun .plain sd "/v2" q (some cfg) fs script t = ⟨.ok v, fs, 0, 0⟩)
    ∧ (∀ (t : Nat) (resp : Response β) (rest : List (Response β)),
        t - T > 3600 → default_keep_forever_behavior req = false →
        resp.status < 400 →
        hasResponse cfg fs req t = (false, fs.delItem key)
        ∧ ((Query.execRun .plain sd "/v2" q (some cfg) fs (resp :: rest) t).outcome
            = .ok resp.body
          ∧ (Query.execRun .plain sd "/v2" q (some cfg) fs (resp :: rest) t).sends = 1
          ∧ pyLookup (Query.execRun .plain sd "/v2" q (some cfg) fs
              (resp :: rest) t).fs.files key = some resp.body
          ∧ pyLookup (Query.execRun .plain sd "/v2" q (some cfg) fs
              (resp :: rest) t).fs.mtimes key = some t)) := by
  subst hreq
  have hcont : fs.contains key = true := by
    simp [FileSys.contains, pyHasKey, hfile]
  have hlast : fs.lastCachedAt key = T := by
    simp [FileSys.lastCachedAt, hmtime]
  constructor
  · intro t script ht
    have hexp : cachedValueExpired cfg fs
        ⟨"GET", buildUrlPath "/v2" q.path, q.params⟩ t = false := by
      rw [cachedValueExpired, hkf]
      cases hdk : default_keep_forever_behavior
          ⟨"GET", buildUrlPath "/v2" q.path, q.params⟩ with
      | false => simp [hdk, ← hkey, hlast, httl]; omega
      | true => simp [hdk]
    rw [Query.execRun]
    simp only [buildRequest]
    rw [attemptLoop.eq_def]
    simp [hasResponse, ← hkey, hcont, hexp, getResponse, FileSys.getItem, hur,
      hfile]
  · intro t resp rest ht hnk hst
    have hexp : cachedValueExpired cfg fs
        ⟨"GET", buildUrlPath "/v2" q.path, q.params⟩ t = true := by
      rw [cachedValueExpired, hkf]
      simp [hnk, ← hkey, hlast, httl]
      omega
    have hhr : hasResponse cfg fs ⟨"GET", buildUrlPath "/v2" q.path, q.params⟩ t
        = (false, fs.delItem key) := by
      rw [hasResponse]
      simp [← hkey, hcont, hexp]
    refine ⟨hhr, ?_⟩
    have hrun : Query.execRun .plain sd "/v2" q (some cfg) fs (resp :: rest) t
        = ⟨.ok resp.body,
            { files := pySet (pyDel fs.files key) key resp.body,
              mtimes := pySet (pyDel fs.mtimes key) key t,
              unreadable := fs.unreadable, unwritable := fs.unwritable }, 0, 1⟩ := by
      rw [Query.execRun]
      simp only [buildRequest]
      rw [attemptLoop.eq_def]
      simp [hhr, hst, saveResponse, responseShouldBeCached, hsave,
        FileSys.setItem, FileSys.delItem, ← hkey, huw]
    rw [hrun]
    simp [pyLookup_pySet_self]

/-- Witness for `cache_roundtrip_ttl`: an entry cached at `T = 100`,
probed fresh at `t = 1900` and expired at `t = 4100`. -/
theorem cache_roundtrip_ttl_witness :
    (Query.execRun .plain ⟨[]⟩ "/v2" ⟨"animals", [], false⟩
        (some { directory := "dir" })
        (⟨[(FileCache.as_key "dir" ⟨"GET", "/v2/animals", []⟩, (7:Nat))],
          [(FileCache.as_key "dir" ⟨"GET", "/v2/animals", []⟩, 100)], [], []⟩)
        [⟨200, 9⟩] 1900
      = ⟨.ok 7, ⟨[(FileCache.as_key "dir" ⟨"GET", "/v2/animals", []⟩, 7)],
          [(FileCache.as_key "dir" ⟨"GET", "/v2/animals", []⟩, 100)], [], []⟩, 0, 0⟩)
    ∧ ((Query.execRun .plain ⟨[]⟩ "/v2" ⟨"animals", [], false⟩
        (some { directory := "dir" })
        (⟨[(FileCache.as_key "dir" ⟨"GET", "/v2/animals", []⟩, (7:Nat))],
          [(FileCache.as_key "dir" ⟨"GET", "/v2/animals", []⟩, 100)], [], []⟩)
        [⟨200, 9⟩] 4100).outcome = .ok 9
      ∧ pyLookup (Query.execRun .plain ⟨[]⟩ "/v2" ⟨"animals", [], false⟩
        (some { directory := "dir" })
        (⟨[(FileCache.as_key "dir" ⟨"GET", "/v2/animals", []⟩, (7:Nat))],
          [(FileCache.as_key "dir" ⟨"GET", "/v2/animals", []⟩, 100)], [], []⟩)
        [⟨200, 9⟩] 4100).fs.files (FileCache.as_key "dir" ⟨"GET", "/v2/animals", []⟩)
        = some 9) :=
  have h := cache_roundtrip_ttl { directory := "dir" } ⟨[]⟩ ⟨"animals", [], false⟩
    (⟨[(FileCache.as_key "dir" ⟨"GET", "/v2/animals", []⟩, (7:Nat))],
      [(FileCache.as_key "dir" ⟨"GET", "/v2/animals", []⟩, 100)], [], []⟩)
    _ _ 7 100 rfl rfl rfl rfl rfl (by decide) (by decide) rfl rfl
  ⟨h.1 1900 [⟨200, 9⟩] (by decide),
   ⟨(h.2 4100 ⟨200, 9⟩ [] (by decide) (by decide) (by decide)).2.1,
    (h.2 4100 ⟨200, 9⟩ [] (by decide) (by decide) (by decide)).2.2.2.1⟩⟩

/-! ## C4 — search and pagination -/

/-- C4 counterexample: `search` takes no `limit`/`startPage` arguments
and performs no fan-out.  A query chained with `limit=250` fails
pydantic validation (`limit` must be ≤ 100) and issues ZERO requests,
not 3; and the plain `animals` query's `search()` issues exactly ONE
request and returns that single page's 100 items even though three full
pages are scripted — not 250 items. -/
theorem search_no_pagination_counterexample :
    (AnimalsQuery.searchRun ⟨[]⟩ "/v2"
        (AnimalsQuery.limit (AnimalsQuery.base false) 250) none ⟨[], [], [], []⟩
        [⟨200, ⟨List.range 100⟩⟩, ⟨200, ⟨List.range 100⟩⟩, ⟨200, ⟨List.range 100⟩⟩] 0
      = ⟨none, ⟨[], [], [], []⟩, 0, 0⟩)
    ∧ (AnimalsQuery.searchRun ⟨[]⟩ "/v2" (AnimalsQuery.base false) none
        ⟨[], [], [], []⟩
        [⟨200, ⟨List.range 100⟩⟩, ⟨200, ⟨List.range 100⟩⟩, ⟨200, ⟨List.range 100⟩⟩] 0
      = ⟨some (List.range 100), ⟨[], [], [], []⟩, 0, 1⟩) := by
  constructor <;> decide

/-- C4 amended: `search()` is not an orchestrator: it accepts no
`limit`/`startPage` arguments, runs `execute()` exactly once with the
query's own parameters, and returns the `animals` list of that single
response; `limit` values above the page cap of 100 are rejected by
validation before any request is sent. -/
theorem search_executes_once (sd : StaticData) (basePath : String) (q : Query)
    (fs : FileSys AnimalsBody) (now : Nat) (ps : PyDict PyVal)
    (resp : Response AnimalsBody) (rest : List (Response AnimalsBody))
    (hps : AnimalQueryParams.parse sd q.params = .ok ps)
    (hst : resp.status < 400) :
    AnimalsQuery.searchRun sd basePath q none fs (resp :: rest) now
      = ⟨some resp.body.animals, fs, 0, 1⟩ := by
  rw [AnimalsQuery.searchRun, Query.execRun]
  simp only [buildRequest, hps, Except.map]
  rw [attemptLoop.eq_def]
  simp [hst]

/-- Witness for `search_executes_once` at the default parameters and a
three-item page. -/
theorem search_executes_once_witness :
    AnimalsQuery.searchRun ⟨[]⟩ "/v2" (AnimalsQuery.base false) none
        ⟨[], [], [], []⟩ [⟨200, ⟨[1, 2, 3]⟩⟩] 0
      = ⟨some [1, 2, 3], ⟨[], [], [], []⟩, 0, 1⟩ :=
  search_executes_once ⟨[]⟩ "/v2" (AnimalsQuery.base false) ⟨[], [], [], []⟩ 0
    [("status", .s "adoptable"), ("sort", .s "recent"), ("limit", .i 100),
      ("page", .i 1)]
    ⟨200, ⟨[1, 2, 3]⟩⟩ [] rfl (by decide)

/-! ## C7 — cross-field dependency checks -/

/-- A failing pre-root-validator fails the whole parse with its error. -/
theorem parse_error_of_root (sd : StaticData) (raw : PyDict PyVal) (e : ValErr)
    (h : rootValidate sd raw = .error e) :
    AnimalQueryParams.parse sd raw = .error e := by
  rw [AnimalQueryParams.parse]
  simp [h, Bind.bind, Except.bind]

/-- A failing `_build_request` (pydantic `ValidationError`) aborts
`execute()` before anything is sent. -/
theorem execRun_of_buildRequest_error (pc : ParamsClass) (sd : StaticData)
    (bp : String) (q : Query) (e : ValErr) (cfg? : Option (CacheCfg β))
    (fs : FileSys β) (script : List (Response β)) (now : Nat)
    (h : buildRequest pc sd bp q = .error e) :
    Query.execRun pc sd bp q cfg? fs script now = ⟨.validationError e, fs, 0, 0⟩ := by
  simp [Query.execRun, h]

/-- C7: `distance` set (truthy) without `location` fails the parse with
`MissingDependency("distance", "location")` for EVERY raw map — in
particular also for maps whose categorical values are invalid, so the
dependency checks run before the categorical checks; a distance-based
`sort` without `location` (and no truthy `distance`, which the code
tests first) fails with `MissingDependency` for `sort`; both dependency
checks pass as soon as `location` is present; and the root validator is
literally the dependency checks sequenced before the categorical
checks. -/
theorem dependency_checks_first (sd : StaticData) :
    (∀ (raw : PyDict PyVal) (v : PyVal),
      pyLookup raw "location" = none → pyLookup raw "distance" = some v →
      v.truthy = true →
      AnimalQueryParams.parse sd raw
        = .error (.missingDependency "distance" "location"))
    ∧ (∀ raw : PyDict PyVal,
      pyLookup raw "location" = none → truthyAt raw "distance" = false →
      sortNeedsLocation (pyLookup raw "sort") = true →
      AnimalQueryParams.parse sd raw
        = .error (.missingDependency "sort" "location"))
    ∧ (∀ (raw : PyDict PyVal) (loc : PyVal),
      pyLookup raw "location" = some loc → checkDeps raw = .ok ())
    ∧ (∀ raw : PyDict PyVal,
      rootValidate sd raw
        = (checkDeps raw >>= fun _ => checkCategoricals sd raw)) := by
  refine ⟨?_, ?_, ?_, fun raw => rfl⟩
  · intro raw v hloc hdist htr
    have hcd : checkDeps raw = .error (.missingDependency "distance" "location") := by
      simp [checkDeps, hloc, truthyAt, hdist, htr]
    apply parse_error_of_root
    simp [rootValidate, hcd, Bind.bind, Except.bind]
  · intro raw hloc hdist hsort
    have hcd : checkDeps raw = .error (.missingDependency "sort" "location") := by
      simp [checkDeps, hloc, hdist, hsort]
    apply parse_error_of_root
    simp [rootValidate, hcd, Bind.bind, Except.bind]
  · intro raw loc hloc
    simp [checkDeps, hloc]

/-- Witness for `dependency_checks_first`: concrete filter maps with
`distance` alone, a distance sort alone, and `location` present. -/
theorem dependency_checks_first_witness :
    AnimalQueryParams.parse ⟨[]⟩ [("distance", PyVal.i 50)]
      = .error (.missingDependency "distance" "location")
    ∧ AnimalQueryParams.parse ⟨[]⟩ [("sort", PyVal.s "-distance")]
      = .error (.missingDependency "sort" "location")
    ∧ checkDeps [("location", PyVal.s "02114"), ("distance", PyVal.i 50)] = .ok () :=
  ⟨(dependency_checks_first ⟨[]⟩).1 _ (PyVal.i 50) (by decide) (by decide) (by decide),
   (dependency_checks_first ⟨[]⟩).2.1 _ (by decide) (by decide) (by decide),
   (dependency_checks_first ⟨[]⟩).2.2.1 _ (PyVal.s "02114") (by decide)⟩

/-! ## C8 — categorical validation against the reference store -/

/-- The check loop reports the first value whose lowercase form is not
in the valid set, when one exists. -/
theorem checkChoices_error_of_bad (field : String) (valid : List String)
    (l : List String) (h : ∃ x ∈ l, valid.contains (pyLower x) = false) :
    ∃ ch ∈ l, valid.contains (pyLower ch) = false
      ∧ checkChoices field valid l = .error (.invalidChoice field ch) := by
  induction l with
  | nil => simp at h
  | cons x rest ih =>
      by_cases hx : valid.contains (pyLower x) = true
      · obtain ⟨y, hy, hyb⟩ := h
        rcases List.mem_cons.mp hy with rfl | hmem
        · rw [hx] at hyb
          cases hyb
        · obtain ⟨ch, hch, hchb, hcc⟩ := ih ⟨y, hmem, hyb⟩
          refine ⟨ch, List.mem_cons_of_mem x hch, hchb, ?_⟩
          simp only [checkChoices]
          rw [if_pos hx]
          exact hcc
      · refine ⟨x, List.mem_cons_self x rest, by simpa using hx, ?_⟩
        simp only [checkChoices]
        rw [if_neg hx]

/-- The check loop passes when every value's lowercase form is known. -/
theorem checkChoices_ok (field : String) (valid : List String) (l : List String)
    (h : ∀ x ∈ l, valid.contains (pyLower x) = true) :
    checkChoices field valid l = .ok () := by
  induction l with
  | nil => rfl
  | cons x rest ih =>
      simp only [checkChoices]
      rw [if_pos (h x (List.mem_cons_self x rest)),
        ih fun y hy => h y (List.mem_cons_of_mem x hy)]

/-- C8: for a category `c` populated in the reference store, a filter
map that sets `type = c` together with a breed (resp. color) list
containing a value whose lowercase form is not in the store's set fails
the parse with `InvalidChoice` — and `execute()` then terminates with
that validation error after ZERO sends, i.e. before any network call;
whereas breed values that differ from known ones only by letter case
pass the root validation. -/
theorem categorical_validation {β : Type} (sd : StaticData) (raw : PyDict PyVal)
    (c : String) (dat : CategoryData)
    (hsd : pyLookup sd.store c = some dat)
    (htype : pyLookup raw "type" = some (.s c)) (hc : c ≠ "")
    (hdeps : checkDeps raw = .ok ()) :
    (∀ bs : List String, pyLookup raw "breed" = some (.ls bs) → bs ≠ [] →
      (∃ b ∈ bs, dat.breeds.contains (pyLower b) = false) →
      ∃ ch ∈ bs, dat.breeds.contains (pyLower ch) = false
        ∧ AnimalQueryParams.parse sd raw = .error (.invalidChoice "breed" ch)
        ∧ ∀ (bp : String) (q : Query) (cfg? : Option (CacheCfg β))
            (fs : FileSys β) (script : List (Response β)) (now : Nat),
            q.params = raw →
            Query.execRun .animals sd bp q cfg? fs script now
              = ⟨.validationError (.invalidChoice "breed" ch), fs, 0, 0⟩)
    ∧ (∀ cs : List String, truthyAt raw "breed" = false →
        pyLookup raw "color" = some (.ls cs) → cs ≠ [] →
        (∃ x ∈ cs, dat.colors.contains (pyLower x) = false) →
        ∃ ch ∈ cs, dat.colors.contains (pyLower ch) = false
          ∧ AnimalQueryParams.parse sd raw = .error (.invalidChoice "color" ch))
    ∧ (∀ bs : List String, pyLookup raw "breed" = some (.ls bs) →
        (∀ b ∈ bs, dat.breeds.contains (pyLower b) = true) →
        truthyAt raw "color" = false →
        rootValidate sd raw = .ok ()) := by
  have httr : truthyAt raw "type" = true := by
    simp [truthyAt, htype, PyVal.truthy, hc]
  refine ⟨?_, ?_, ?_⟩
  · intro bs hbreed hne hbad
    have htrb : truthyAt raw "breed" = true := by
      simp [truthyAt, hbreed, PyVal.truthy, hne]
    obtain ⟨ch, hch, hchb, hcc⟩ := checkChoices_error_of_bad "breed" dat.breeds bs hbad
    have hcat : checkCategoricals sd raw = .error (.invalidChoice "breed" ch) := by
      rw [checkCategoricals]
      simp [httr, htype, htrb, StaticData.get_breeds, hsd, hbreed, pyIter, hcc,
        Bind.bind, Except.bind]
    have hrv : rootValidate sd raw = .error (.invalidChoice "breed" ch) := by
      simp [rootValidate, hdeps, hcat, Bind.bind, Except.bind]
    have hparse := parse_error_of_root sd raw _ hrv
    refine ⟨ch, hch, hchb, hparse, ?_⟩
    intro bp q cfg? fs script now hq
    apply execRun_of_buildRequest_error
    simp [buildRequest, hq, hparse, Except.map]
  · intro cs hnb hcolor hne hbad
    have htrc : truthyAt raw "color" = true := by
      simp [truthyAt, hcolor, PyVal.truthy, hne]
    obtain ⟨ch, hch, hchb, hcc⟩ := checkChoices_error_of_bad "color" dat.colors cs hbad
    have hcat : checkCategoricals sd raw = .error (.invalidChoice "color" ch) := by
      rw [checkCategoricals]
      simp [httr, htype, hnb, htrc, StaticData.get_colors, hsd, hcolor, pyIter,
        hcc, Bind.bind, Except.bind]
    have hrv : rootValidate sd raw = .error (.invalidChoice "color" ch) := by
      simp [rootValidate, hdeps, hcat, Bind.bind, Except.bind]
    exact ⟨ch, hch, hchb, parse_error_of_root sd raw _ hrv⟩
  · intro bs hbreed hgood hnc
    have hcat : checkCategoricals sd raw = .ok () := by
      rw [checkCategoricals]
      by_cases hbs : bs = []
      · subst hbs
        have htrb : truthyAt raw "breed" = false := by
          simp [truthyAt, hbreed, PyVal.truthy]
        simp [httr, htype, htrb, hnc, Bind.bind, Except.bind]
      · have htrb : truthyAt raw "breed" = true := by
          simp [truthyAt, hbreed, PyVal.truthy, hbs]
        simp [httr, htype, htrb, hnc, StaticData.get_breeds, hsd, hbreed, pyIter,
          checkChoices_ok "breed" dat.breeds bs hgood, Bind.bind, Except.bind]
    simp [rootValidate, hdeps, hcat, Bind.bind, Except.bind]

/-- Witness for `categorical_validation`: a store with breeds
`{pug, beagle}` for `dog`; `breed=["dragonhound"]` is rejected with
`InvalidChoice` and zero sends, while `breed=["PUG"]` (case-differing)
passes root validation. -/
theorem categorical_validation_witness :
    (∃ ch ∈ ["dragonhound"],
      (⟨["pug", "beagle"], ["short"], ["black", "white"],
          ["male", "female"]⟩ : CategoryData).breeds.contains (pyLower ch) = false
      ∧ AnimalQueryParams.parse
          ⟨[("dog", ⟨["pug", "beagle"], ["short"], ["black", "white"],
            ["male", "female"]⟩)]⟩
          [("type", .s "dog"), ("breed", .ls ["dragonhound"])]
        = .error (.invalidChoice "breed" ch)
      ∧ ∀ (bp : String) (q : Query) (cfg? : Option (CacheCfg Unit))
          (fs : FileSys Unit) (script : List (Response Unit)) (now : Nat),
          q.params = [("type", .s "dog"), ("breed", .ls ["dragonhound"])] →
          Query.execRun .animals
            ⟨[("dog", ⟨["pug", "beagle"], ["short"], ["black", "white"],
              ["male", "female"]⟩)]⟩ bp q cfg? fs script now
            = ⟨.validationError (.invalidChoice "breed" ch), fs, 0, 0⟩)
    ∧ rootValidate
        ⟨[("dog", ⟨["pug", "beagle"], ["short"], ["black", "white"],
          ["male", "female"]⟩)]⟩
        [("type", .s "dog"), ("breed", .ls ["PUG"])] = .ok () :=
  ⟨(categorical_validation (β := Unit)
      ⟨[("dog", ⟨["pug", "beagle"], ["short"], ["black", "white"],
        ["male", "female"]⟩)]⟩
      [("type", .s "dog"), ("breed", .ls ["dragonhound"])]
      "dog" ⟨["pug", "beagle"], ["short"], ["black", "white"], ["male", "female"]⟩
      (by decide) (by decide) (by decide) rfl).1
      ["dragonhound"] (by decide) (by decide)
      ⟨"dragonhound", by decide, by decide⟩,
   (categorical_validation (β := Unit)
      ⟨[("dog", ⟨["pug", "beagle"], ["short"], ["black", "white"],
        ["male", "female"]⟩)]⟩
      [("type", .s "dog"), ("breed", .ls ["PUG"])]
      "dog" ⟨["pug", "beagle"], ["short"], ["black", "white"], ["male", "female"]⟩
      (by decide) (by decide) (by decide) rfl).2.2
      ["PUG"] (by decide) (by decide) (by decide)⟩

/-! ## C10 — canonical defaults at request-build time -/

/-- Inversion of a successful `AnimalQueryParams` parse: every field
parser succeeded and the output dict is their assembly in declaration
order. -/
theorem parse_ok_inv (sd : StaticData) (raw : PyDict PyVal) (out : PyDict PyVal)
    (h : AnimalQueryParams.parse sd raw = .ok out) :
    ∃ typ breed size gender age color coat org nm loc dist,
    ∃ status sort limit page,
      fieldEnum raw "type" validCategories = .ok typ
      ∧ fieldStrList raw "breed" = .ok breed
      ∧ fieldEnumList raw "size" validSizes = .ok size
      ∧ fieldEnumList raw "gender" validGenders = .ok gender
      ∧ fieldEnumList raw "age" validAges = .ok age
      ∧ fieldStrList raw "color" = .ok color
      ∧ fieldEnumList raw "coat" validCoats = .ok coat
      ∧ fieldStrList raw "organization" = .ok org
      ∧ fieldStr raw "name" = .ok nm
      ∧ fieldStr raw "location" = .ok loc
      ∧ fieldDistance raw = .ok dist
      ∧ fieldEnumD raw "status" validStatuses "adoptable" = .ok status
      ∧ fieldEnumD raw "sort" validSorts "recent" = .ok sort
      ∧ fieldLimit raw = .ok limit
      ∧ fieldPage raw = .ok page
      ∧ out = optEntry "type" typ ++ optEntry "breed" breed ++ optEntry "size" size
          ++ optEntry "gender" gender ++ optEntry "age" age
          ++ optEntry "color" color ++ optEntry "coat" coat
          ++ optEntry "organization" org ++ optEntry "name" nm
          ++ optEntry "location" loc ++ optEntry "distance" dist
          ++ [("status", status), ("sort", sort), ("limit", limit),
              ("page", page)] := by
  rw [AnimalQueryParams.parse] at h
  simp only [except_bind_ok] at h
  obtain ⟨_, _, typ, ht, breed, hb, size, hs, gender, hg, age, ha, color, hc,
    coat, hco, org, ho, nm, hn, loc, hl, dist, hd, status, hst, sort, hso,
    limit, hli, page, hp, hout⟩ := h
  rw [Except.ok.injEq] at hout
  exact ⟨typ, breed, size, gender, age, color, coat, org, nm, loc, dist,
    status, sort, limit, page, ht, hb, hs, hg, ha, hc, hco, ho, hn, hl, hd,
    hst, hso, hli, hp, hout.symm⟩

/-- C10: in a successful parse of an animals-query parameter map, each
of `status`, `sort`, `limit`, `page` appears in the canonical outgoing
parameter set with its declared default (`adoptable`, `recent`, `100`,
`1`) when the raw map omits the key, and with the explicitly chained
value when the raw map provides one. -/
theorem animals_default_params (sd : StaticData) (raw out : PyDict PyVal)
    (h : AnimalQueryParams.parse sd raw = .ok out) :
    (pyLookup raw "status" = none →
      pyLookup out "status" = some (.s "adoptable"))
    ∧ (pyLookup raw "sort" = none → pyLookup out "sort" = some (.s "recent"))
    ∧ (pyLookup raw "limit" = none → pyLookup out "limit" = some (.i 100))
    ∧ (pyLookup raw "page" = none → pyLookup out "page" = some (.i 1))
    ∧ (∀ st, pyLookup raw "status" = some (.s st) →
        pyLookup out "status" = some (.s st))
    ∧ (∀ so, pyLookup raw "sort" = some (.s so) →
        pyLookup out "sort" = some (.s so))
    ∧ (∀ v : Int, pyLookup raw "limit" = some (.i v) →
        pyLookup out "limit" = some (.i v))
    ∧ (∀ v : Int, pyLookup raw "page" = some (.i v) →
        pyLookup out "page" = some (.i v)) := by
  obtain ⟨typ, breed, size, gender, age, color, coat, org, nm, loc, dist,
    status, sort, limit, page, ht, hb, hs, hg, ha, hc, hco, ho, hn, hl, hd,
    hst, hso, hli, hp, hout⟩ := parse_ok_inv sd raw out h
  subst hout
  have lk : ∀ k : String, k = "status" ∨ k = "sort" ∨ k = "limit" ∨ k = "page" →
      pyLookup (optEntry "type" typ ++ optEntry "breed" breed
        ++ optEntry "size" size ++ optEntry "gender" gender
        ++ optEntry "age" age ++ optEntry "color" color
        ++ optEntry "coat" coat ++ optEntry "organization" org
        ++ optEntry "name" nm ++ optEntry "location" loc
        ++ optEntry "distance" dist
        ++ [("status", status), ("sort", sort), ("limit", limit),
            ("page", page)]) k
        = pyLookup [("status", status), ("sort", sort), ("limit", limit),
            ("page", page)] k := by
    intro k hk
    rcases hk with rfl | rfl | rfl | rfl <;>
      simp [pyLookup_append, pyLookup_optEntry, Option.orElse]
  refine ⟨?_, ?_, ?_, ?_, ?_, ?_, ?_, ?_⟩
  · intro hraw
    rw [fieldEnumD, hraw] at hst
    rw [Except.ok.injEq] at hst
    rw [lk "status" (by simp), ← hst]
    rfl
  · intro hraw
    rw [fieldEnumD, hraw] at hso
    rw [Except.ok.injEq] at hso
    rw [lk "sort" (by simp), ← hso]
    rfl
  · intro hraw
    rw [fieldLimit, hraw] at hli
    rw [Except.ok.injEq] at hli
    rw [lk "limit" (by simp), ← hli]
    rfl
  · intro hraw
    rw [fieldPage, hraw] at hp
    rw [Except.ok.injEq] at hp
    rw [lk "page" (by simp), ← hp]
    rfl
  · intro st hraw
    rw [fieldEnumD, hraw] at hst
    dsimp only at hst
    split at hst
    · rw [Except.ok.injEq] at hst
      rw [lk "status" (by simp), ← hst]
      rfl
    · cases hst
  · intro so hraw
    rw [fieldEnumD, hraw] at hso
    dsimp only at hso
    split at hso
    · rw [Except.ok.injEq] at hso
      rw [lk "sort" (by simp), ← hso]
      rfl
    · cases hso
  · intro v hraw
    rw [fieldLimit, hraw] at hli
    dsimp only at hli
    split at hli
    · rw [Except.ok.injEq] at hli
      rw [lk "limit" (by simp), ← hli]
      rfl
    · cases hli
  · intro v hraw
    rw [fieldPage, hraw] at hp
    dsimp only at hp
    split at hp
    · rw [Except.ok.injEq] at hp
      rw [lk "page" (by simp), ← hp]
      rfl
    · cases hp

/-- Witness for `animals_default_params`: a raw map omitting `status`,
`sort` and `page` while chaining `limit=50`. -/
theorem animals_default_params_witness :
    pyLookup [("status", PyVal.s "adoptable"), ("sort", PyVal.s "recent"),
        ("limit", PyVal.i 50), ("page", PyVal.i 1)] "status"
      = some (.s "adoptable")
    ∧ pyLookup [("status", PyVal.s "adoptable"), ("sort", PyVal.s "recent"),
        ("limit", PyVal.i 50), ("page", PyVal.i 1)] "limit" = some (.i 50) :=
  have h : AnimalQueryParams.parse ⟨[]⟩ [("limit", PyVal.i 50)]
      = .ok [("status", PyVal.s "adoptable"), ("sort", PyVal.s "recent"),
          ("limit", PyVal.i 50), ("page", PyVal.i 1)] := rfl
  ⟨(animals_default_params ⟨[]⟩ _ _ h).1 rfl,
   (animals_default_params ⟨[]⟩ _ _ h).2.2.2.2.2.2.1 50 rfl⟩

end Petfinder
